import Mathlib

/-!
Verification development for the semantic-search-engine repository.

The repository ships a React client (App.jsx, ResultsDisplay.jsx,
SearchInterface.jsx, the useWebSocket hook, api utilities) together with
startup scripts; the Python backend (semantic cache, query router,
retrieval orchestrator) is not part of the checked-in sources, so the
cache and router are modelled here from the specification, while every
client-side definition is a direct shallow embedding of the JavaScript
in the repository.

Embedding conventions: JavaScript numbers that the spec treats as exact
(embedding coordinates, similarity scores, thresholds) are rationals;
timestamps are a logical clock (a natural number incremented on every
mutating cache operation); JSON objects crossing the WebSocket are
association lists of string keys to a small value type.
-/

namespace SSE

/-- Modelled from the spec: the fixed route-category taxonomy of the query
router (spec section 3, RouteDecision). The wire tokens attached to search
responses are the three strings distinguished by the client in
ResultsDisplay.jsx getQueryTypeColor. -/
inductive RouteCategory where
  | documentQuery
  | apiDocQuery
  | webQuery
deriving DecidableEq, Repr

/-- Wire token of each route category, as evidenced by the three query_type
strings the client distinguishes in ResultsDisplay.jsx lines 11-22. -/
def categoryToken : RouteCategory → String
  | .documentQuery => "10K_DOCUMENT_QUERY"
  | .apiDocQuery => "OPENAI_QUERY"
  | .webQuery => "INTERNET_QUERY"

/-- Modelled from the spec: SourceRef record (spec section 3). -/
structure SourceRef where
  source_type : String
  content_excerpt : String
  score : ℚ
  metadata : List (String × String)
deriving DecidableEq, Repr

/-- Modelled from the spec: CacheEntry record (spec section 3). Timestamps
are logical-clock values; last_hit_at is initialised to the creation time. -/
structure CacheEntry where
  id : Nat
  question_text : String
  embedding : List ℚ
  answer_text : String
  sources : List SourceRef
  category : RouteCategory
  created_at : Nat
  hit_count : Nat
  last_hit_at : Nat
deriving DecidableEq, Repr

/-- Modelled from the spec: the Semantic Cache state (spec section 4.1):
entry list, similarity threshold in [0,1], embedding dimension, backing
file name, plus the logical clock that orders timestamps. -/
structure CacheState where
  entries : List CacheEntry
  threshold : ℚ
  dim : Nat
  cache_file : String
  clock : Nat
deriving DecidableEq, Repr

/-- Modelled from the spec: squared Euclidean distance between two
embeddings (spec section 4.1, distance metric). -/
def dist2 (a b : List ℚ) : ℚ :=
  (List.zipWith (fun x y => (x - y) ^ 2) a b).sum

/-- Modelled from the spec: conversion of a squared Euclidean distance to a
normalized similarity in [0,1] (spec section 4.1): equal to 1 exactly at
distance 0 and strictly decreasing in the distance. -/
def similarity (d : ℚ) : ℚ := 1 / (1 + d)

/-- Modelled from the spec: the candidate-selection order of lookup (spec
section 4.1): smaller distance wins, ties broken by the most recent
last_hit_at. -/
def pickBetter (q : List ℚ) (acc : Option CacheEntry) (e : CacheEntry) :
    Option CacheEntry :=
  match acc with
  | none => some e
  | some b =>
    if dist2 q e.embedding < dist2 q b.embedding then some e
    else if dist2 q e.embedding = dist2 q b.embedding ∧
        b.last_hit_at < e.last_hit_at then some e
    else some b

/-- Modelled from the spec: the linear scan of lookup over all stored
entries (spec section 4.1). -/
def selectBest (q : List ℚ) (l : List CacheEntry) : Option CacheEntry :=
  l.foldl (pickBetter q) none

/-- Outcome of a cache lookup: a hit carrying the similarity score and the
stored answer and sources, or a miss. -/
inductive LookupResult where
  | hit (sim : ℚ) (answer : String) (sources : List SourceRef)
  | miss
deriving DecidableEq, Repr

/-- Modelled from the spec: lookup (spec section 4.1). Scans every entry,
selects the nearest candidate (ties by most recent last_hit_at), hits iff
its similarity meets the threshold; on hit it increments the hit_count of that
entry and refreshes its last_hit_at, leaving all other fields alone. -/
def lookup (s : CacheState) (q : List ℚ) : LookupResult × CacheState :=
  match selectBest q s.entries with
  | none => (.miss, s)
  | some b =>
    if s.threshold ≤ similarity (dist2 q b.embedding) then
      (.hit (similarity (dist2 q b.embedding)) b.answer_text b.sources,
       { s with
          entries := s.entries.map fun x =>
            if x.id = b.id then
              { x with hit_count := x.hit_count + 1, last_hit_at := s.clock }
            else x,
          clock := s.clock + 1 })
    else (.miss, s)

/-- Modelled from the spec: insert (spec section 4.1). Appends a fresh
entry (no deduplication) whose id and timestamps come from the logical
clock, and returns it together with the new state. -/
def insert (s : CacheState) (qt : String) (emb : List ℚ) (ans : String)
    (srcs : List SourceRef) (cat : RouteCategory) : CacheEntry × CacheState :=
  let e : CacheEntry :=
    { id := s.clock, question_text := qt, embedding := emb,
      answer_text := ans, sources := srcs, category := cat,
      created_at := s.clock, hit_count := 0, last_hit_at := s.clock }
  (e, { s with entries := s.entries ++ [e], clock := s.clock + 1 })

/-- The hit/miss decision of a lookup, ignoring the state update. -/
def hitDecision (s : CacheState) (q : List ℚ) : Bool :=
  match (lookup s q).1 with
  | .hit _ _ _ => true
  | .miss => false

/-- Well-formedness of a cache state: every stored id and last_hit_at
predates the logical clock. Both insert and lookup preserve this and every
state built by the model satisfies it. -/
def WF (s : CacheState) : Prop :=
  ∀ p ∈ s.entries, p.id < s.clock ∧ p.last_hit_at < s.clock

theorem dist2_nonneg (a b : List ℚ) : 0 ≤ dist2 a b := by
  induction a generalizing b with
  | nil => simp [dist2]
  | cons x xs ih =>
    cases b with
    | nil => simp [dist2]
    | cons y ys =>
      simp only [dist2, List.zipWith, List.sum_cons]
      have h1 : (0 : ℚ) ≤ (x - y) ^ 2 := sq_nonneg _
      have h2 := ih ys
      simp only [dist2] at h2
      linarith

theorem dist2_self (a : List ℚ) : dist2 a a = 0 := by
  induction a with
  | nil => simp [dist2]
  | cons x xs ih =>
    simp only [dist2, List.zipWith, List.sum_cons] at *
    simp [ih]

theorem similarity_zero : similarity 0 = 1 := by
  norm_num [similarity]

theorem foldl_pickBetter_mem (q : List ℚ) (l : List CacheEntry)
    (acc : Option CacheEntry) (b : CacheEntry)
    (h : l.foldl (pickBetter q) acc = some b) : b ∈ l ∨ acc = some b := by
  induction l generalizing acc with
  | nil => exact Or.inr h
  | cons x xs ih =>
    simp only [List.foldl_cons] at h
    rcases ih (pickBetter q acc x) h with hmem | hacc
    · exact Or.inl (List.mem_cons_of_mem _ hmem)
    · unfold pickBetter at hacc
      match acc with
      | none =>
        simp only [Option.some.injEq] at hacc
        exact Or.inl (hacc ▸ List.mem_cons_self _ _)
      | some a =>
        simp only at hacc
        split at hacc
        · simp only [Option.some.injEq] at hacc
          exact Or.inl (hacc ▸ List.mem_cons_self _ _)
        · split at hacc
          · simp only [Option.some.injEq] at hacc
            exact Or.inl (hacc ▸ List.mem_cons_self _ _)
          · exact Or.inr hacc

theorem selectBest_mem (q : List ℚ) (l : List CacheEntry) (b : CacheEntry)
    (h : selectBest q l = some b) : b ∈ l := by
  rcases foldl_pickBetter_mem q l none b h with hmem | hacc
  · exact hmem
  · simp at hacc

/-- Appending an entry whose embedding equals the probe and whose
last_hit_at is strictly newer than every stored one makes it the selected
candidate. -/
theorem selectBest_append_newest (q : List ℚ) (l : List CacheEntry)
    (e : CacheEntry) (he : e.embedding = q)
    (ht : ∀ p ∈ l, p.last_hit_at < e.last_hit_at) :
    selectBest q (l ++ [e]) = some e := by
  unfold selectBest
  rw [List.foldl_append]
  simp only [List.foldl_cons, List.foldl_nil]
  cases hfold : List.foldl (pickBetter q) none l with
  | none => simp [pickBetter]
  | some b =>
    have hb : b ∈ l := selectBest_mem q l b hfold
    have hbl : b.last_hit_at < e.last_hit_at := ht b hb
    have hde : dist2 q e.embedding = 0 := by rw [he]; exact dist2_self q
    have hdb : 0 ≤ dist2 q b.embedding := dist2_nonneg q b.embedding
    show pickBetter q (some b) e = some e
    simp only [pickBetter]
    rcases lt_or_eq_of_le hdb with hlt | heq
    · rw [if_pos (by rw [hde]; exact hlt)]
    · rw [if_neg (by rw [hde, ← heq]; exact lt_irrefl 0),
        if_pos ⟨by rw [hde, ← heq], hbl⟩]

theorem map_fix_eq_self {α : Type} (l : List α) (f : α → α)
    (h : ∀ x ∈ l, f x = x) : l.map f = l := by
  induction l with
  | nil => rfl
  | cons x xs ih =>
    simp only [List.map_cons]
    rw [h x (List.mem_cons_self x xs),
      ih fun y hy => h y (List.mem_cons_of_mem x hy)]

theorem hitDecision_eq (s : CacheState) (q : List ℚ) :
    hitDecision s q =
      match selectBest q s.entries with
      | none => false
      | some b => decide (s.threshold ≤ similarity (dist2 q b.embedding)) := by
  unfold hitDecision lookup
  cases selectBest q s.entries with
  | none => rfl
  | some b =>
    by_cases h : s.threshold ≤ similarity (dist2 q b.embedding)
    · simp [h]
    · simp [h]

/-- C1: inserting an entry with embedding e and then looking up the very
same vector yields a hit whose similarity is 1 and whose answer and sources
are exactly those stored at insert time, and the lookup changes nothing but
the hit_count and last_hit_at of that entry: the entry list afterwards is the
pre-insert list, untouched, plus the inserted entry with only those two
fields updated. -/
theorem cache_insert_then_lookup (s : CacheState) (qt ans : String)
    (emb : List ℚ) (srcs : List SourceRef) (cat : RouteCategory)
    (hwf : WF s) (hth : s.threshold ≤ 1) :
    (lookup (insert s qt emb ans srcs cat).2 emb).1 =
      LookupResult.hit 1 ans srcs ∧
    (lookup (insert s qt emb ans srcs cat).2 emb).2.entries =
      s.entries ++
        [{ (insert s qt emb ans srcs cat).1 with
            hit_count := (insert s qt emb ans srcs cat).1.hit_count + 1,
            last_hit_at := (insert s qt emb ans srcs cat).2.clock }] := by
  have hsel : selectBest emb (s.entries ++
      [{ id := s.clock, question_text := qt, embedding := emb,
         answer_text := ans, sources := srcs, category := cat,
         created_at := s.clock, hit_count := 0,
         last_hit_at := s.clock }]) = some
      { id := s.clock, question_text := qt, embedding := emb,
        answer_text := ans, sources := srcs, category := cat,
        created_at := s.clock, hit_count := 0, last_hit_at := s.clock } :=
    selectBest_append_newest emb s.entries _ rfl fun p hp => (hwf p hp).2
  constructor
  · simp only [insert, lookup, hsel, dist2_self, similarity_zero]
    rw [if_pos hth]
  · simp only [insert, lookup, hsel, dist2_self, similarity_zero]
    rw [if_pos hth]
    simp only [List.map_append, List.map_cons, List.map_nil, if_pos rfl]
    congr 1
    exact map_fix_eq_self s.entries _ fun x hx => by
      rw [if_neg (Nat.ne_of_lt (hwf x hx).1)]

/-- C1 witness: a concrete insert-then-lookup on an initially empty cache
with threshold 4/5 hits with similarity 1 and the stored answer. -/
theorem cache_insert_then_lookup_witness :
    (lookup (insert
        { entries := [], threshold := 4/5, dim := 2,
          cache_file := "semantic_cache.json", clock := 0 }
        "revenue of Uber in 2021" [1, 2] "an answer" []
        RouteCategory.documentQuery).2 [1, 2]).1 =
      LookupResult.hit 1 "an answer" [] :=
  (cache_insert_then_lookup _ "revenue of Uber in 2021" "an answer" [1, 2]
    [] RouteCategory.documentQuery (by simp [WF]) (by norm_num)).1

/-- C3: for a fixed cache state and probe, the hit decision is monotone in
the threshold: every hit under the larger threshold t2 is still a hit under
any smaller threshold t1; raising the threshold can only turn hits into
misses. -/
theorem hit_monotone_in_threshold (s : CacheState) (q : List ℚ)
    (t1 t2 : ℚ) (hle : t1 ≤ t2)
    (hhit : hitDecision { s with threshold := t2 } q = true) :
    hitDecision { s with threshold := t1 } q = true := by
  rw [hitDecision_eq] at hhit ⊢
  dsimp only at hhit ⊢
  revert hhit
  cases selectBest q s.entries with
  | none => intro hhit; simp at hhit
  | some b =>
    intro hhit
    simp only [decide_eq_true_eq] at hhit ⊢
    exact le_trans hle hhit

/-- A concrete cache entry at embedding [1], used by the concrete
instantiations below. -/
def sampleEntry : CacheEntry :=
  { id := 0, question_text := "q", embedding := [1], answer_text := "a",
    sources := [], category := RouteCategory.webQuery, created_at := 0,
    hit_count := 0, last_hit_at := 0 }

/-- A concrete one-entry cache state, used by the concrete instantiations
below. -/
def sampleState : CacheState :=
  { entries := [sampleEntry], threshold := 1/2, dim := 1,
    cache_file := "semantic_cache.json", clock := 1 }

/-- C3 witness: a concrete one-entry cache that hits at threshold 3/4 also
hits at threshold 1/2. -/
theorem hit_monotone_in_threshold_witness :
    hitDecision { sampleState with threshold := 1/2 } [1] = true :=
  hit_monotone_in_threshold sampleState [1] (1/2) (3/4) (by norm_num)
    (by simp [hitDecision, lookup, selectBest, pickBetter, sampleState,
      sampleEntry, dist2, similarity]; norm_num)

/-- Modelled from the spec: the flattened persisted form of one CacheEntry
(spec section 6, persisted state layout). -/
def encodeEntry (e : CacheEntry) :
    Nat × String × List ℚ × String × List SourceRef × RouteCategory ×
      Nat × Nat × Nat :=
  (e.id, e.question_text, e.embedding, e.answer_text, e.sources,
    e.category, e.created_at, e.hit_count, e.last_hit_at)

/-- Modelled from the spec: rebuilding one CacheEntry from its persisted
form. -/
def decodeEntry (r : Nat × String × List ℚ × String × List SourceRef ×
    RouteCategory × Nat × Nat × Nat) : CacheEntry :=
  { id := r.1, question_text := r.2.1, embedding := r.2.2.1,
    answer_text := r.2.2.2.1, sources := r.2.2.2.2.1,
    category := r.2.2.2.2.2.1, created_at := r.2.2.2.2.2.2.1,
    hit_count := r.2.2.2.2.2.2.2.1, last_hit_at := r.2.2.2.2.2.2.2.2 }

/-- Modelled from the spec: the on-disk cache store, a complete snapshot of
all CacheEntry records plus the configuration needed to rebuild the index
(spec sections 4.1 and 6). -/
structure Store where
  threshold : ℚ
  dim : Nat
  file : String
  records : List (Nat × String × List ℚ × String × List SourceRef ×
    RouteCategory × Nat × Nat × Nat)

/-- Modelled from the spec: persist writes the entire entry set (spec
section 4.1). -/
def persist (s : CacheState) : Store :=
  { threshold := s.threshold, dim := s.dim, file := s.cache_file,
    records := s.entries.map encodeEntry }

/-- Modelled from the spec: load rebuilds the in-memory index from the
persisted snapshot; the logical clock restarts past every persisted
timestamp. -/
def load (st : Store) : CacheState :=
  { entries := st.records.map decodeEntry,
    threshold := st.threshold, dim := st.dim, cache_file := st.file,
    clock := (st.records.map decodeEntry).foldl
      (fun m e => max m (max e.id (max e.created_at e.last_hit_at))) 0 + 1 }

theorem decode_encode (e : CacheEntry) : decodeEntry (encodeEntry e) = e :=
  rfl

/-- C4: persist followed by load into a fresh cache reproduces the same
hit/miss decision as the original for every probe embedding. -/
theorem persist_load_same_decisions (s : CacheState) (q : List ℚ) :
    hitDecision (load (persist s)) q = hitDecision s q := by
  have hent : (load (persist s)).entries = s.entries := by
    simp only [load, persist, List.map_map]
    exact map_fix_eq_self s.entries _ fun x _ => decode_encode x
  rw [hitDecision_eq, hitDecision_eq, hent]
  have hth : (load (persist s)).threshold = s.threshold := rfl
  rw [hth]

/-- Modelled from the spec: RouteDecision (spec section 3): a category
from the fixed taxonomy plus optional confidence and rationale. -/
structure RouteDecision where
  category : RouteCategory
  confidence : Option ℚ
  rationale : Option String
deriving DecidableEq, Repr

/-- Modelled from the spec: validation of the generative-model response
token against the known categories (spec section 4.2); the tokens are the
wire values evidenced by the client. -/
def parseCategory (tok : String) : Option RouteCategory :=
  if tok = "10K_DOCUMENT_QUERY" then some RouteCategory.documentQuery
  else if tok = "OPENAI_QUERY" then some RouteCategory.apiDocQuery
  else if tok = "INTERNET_QUERY" then some RouteCategory.webQuery
  else none

/-- Whether the first character list is a leading segment of the
second. -/
def leadsWith : List Char → List Char → Bool
  | [], _ => true
  | _ :: _, [] => false
  | c :: cs, d :: ds => c = d && leadsWith cs ds

/-- Whether the first character list occurs contiguously inside the
second. -/
def containsChars (pat : List Char) : List Char → Bool
  | [] => leadsWith pat []
  | c :: cs => leadsWith pat (c :: cs) || containsChars pat cs

/-- Whether needle occurs as a substring of hay, the containment test of
the JavaScript includes calls. -/
def occursIn (needle hay : String) : Bool :=
  containsChars needle.toList hay.toList

/-- Modelled from the spec: known document-corpus terms used by the
deterministic router fallback (spec section 4.2, company names; the
ingested corpus is the Uber and Lyft filings shown by the example queries
in SearchInterface.jsx). -/
def documentTerms : List String := ["Uber", "Lyft"]

/-- Modelled from the spec: keyword markers of API-documentation questions
for the router fallback. -/
def apiDocTerms : List String := ["OpenAI", "API"]

/-- Modelled from the spec: the deterministic fallback of the router (spec
section 4.2): keyword matching against known document-corpus terms, then
API-documentation terms, before defaulting to the web-search category. -/
def fallbackClassify (q : String) : RouteCategory :=
  if documentTerms.any (fun t => occursIn t q) then
    RouteCategory.documentQuery
  else if apiDocTerms.any (fun t => occursIn t q) then
    RouteCategory.apiDocQuery
  else RouteCategory.webQuery

/-- Modelled from the spec: classify (spec section 4.2). The generative
model is an oracle that may fail (none) or return an arbitrary token; a
valid token decides the category, and on a failed call or an unparseable
token the deterministic fallback fires. -/
def classify (oracle : String → Option String) (q : String) :
    RouteDecision :=
  match oracle q with
  | some tok =>
    match parseCategory tok with
    | some c =>
      { category := c, confidence := some 1, rationale := some "model" }
    | none =>
      { category := fallbackClassify q, confidence := none,
        rationale := some "fallback" }
  | none =>
    { category := fallbackClassify q, confidence := none,
      rationale := some "fallback" }

/-- JSON-like values carried in the data field of WebSocket messages. -/
inductive JVal where
  | str (s : String)
  | bool (b : Bool)
  | num (n : ℚ)
deriving DecidableEq, Repr

/-- A WebSocket message as built and consumed by the client: a type tag
and an object payload. -/
structure WsMessage where
  type : String
  data : List (String × JVal)
deriving DecidableEq, Repr

/-- Member access on a JSON-like object. -/
def getField (data : List (String × JVal)) (k : String) : Option JVal :=
  (data.find? fun p => p.1 == k).map Prod.snd

/-- Embedding of sendMessage (useWebSocket hook): with a socket present
and the connected flag set, the message is sent and true returned;
otherwise nothing is sent and false is returned. The socket handle is
abstracted to an Option; the second component lists the transmitted
messages. -/
def sendMessage (socket : Option Unit) (isConnected : Bool)
    (message : WsMessage) : Bool × List WsMessage :=
  match socket with
  | some _ => if isConnected then (true, [message]) else (false, [])
  | none => (false, [])

/-- Embedding of the search_query command built by sendSearchQuery
(useWebSocket hook): type search_query with the three data fields query,
allow_web_search and sub_query. -/
def searchQueryMessage (query : String) (allowWebSearch useSubQuery : Bool) :
    WsMessage :=
  { type := "search_query",
    data := [("query", JVal.str query),
      ("allow_web_search", JVal.bool allowWebSearch),
      ("sub_query", JVal.bool useSubQuery)] }

/-- Embedding of sendSearchQuery (useWebSocket hook). -/
def sendSearchQuery (socket : Option Unit) (isConnected : Bool)
    (query : String) (allowWebSearch useSubQuery : Bool) :
    Bool × List WsMessage :=
  sendMessage socket isConnected
    (searchQueryMessage query allowWebSearch useSubQuery)

/-- Embedding of the cache_stats command built by requestCacheStats
(useWebSocket hook): type cache_stats with empty data. -/
def cacheStatsMessage : WsMessage :=
  { type := "cache_stats", data := [] }

/-- Embedding of requestCacheStats (useWebSocket hook). -/
def requestCacheStats (socket : Option Unit) (isConnected : Bool) :
    Bool × List WsMessage :=
  sendMessage socket isConnected cacheStatsMessage

/-- Embedding of the React state owned by App.jsx. -/
structure AppState where
  searchResponse : Option (List (String × JVal))
  logs : List WsMessage
  cacheStats : Option (List (String × JVal))
  isLoading : Bool
  error : Option String
deriving DecidableEq, Repr

/-- The initial App state, mirroring the useState initialisers of
App.jsx. -/
def initialAppState : AppState :=
  { searchResponse := none, logs := [], cacheStats := none,
    isLoading := false, error := none }

/-- Embedding of handleApiError (utils/api): rewrites fetch and
server-error messages and falls back to a generic message on an empty
one. -/
def handleApiError (msg : String) : String :=
  if occursIn "Failed to fetch" msg then
    "Network error: Please check your connection and try again."
  else if occursIn "500" msg then
    "Server error: Please try again later."
  else if msg = "" then "An unexpected error occurred."
  else msg

/-- The error text App.jsx extracts from an error event: the string in the
data error field when present and truthy, else the Unknown-error
fallback. -/
def errorEventText (data : List (String × JVal)) : String :=
  match getField data "error" with
  | some (JVal.str s) => if s = "" then "Unknown error" else s
  | _ => "Unknown error"

/-- Embedding of the WebSocket message dispatch of App.jsx (the switch
over latestMessage.type, lines 30-58): search_response stores the payload
and stops loading; log_message appends to the logs; cache_stats stores the
payload; status flips loading on a processing status and also appends to
the logs; error records the processed error text and stops loading; any
other type only logs to the console, leaving the state unchanged. -/
def appHandleMessage (st : AppState) (m : WsMessage) : AppState :=
  if m.type = "search_response" then
    { st with searchResponse := some m.data, isLoading := false }
  else if m.type = "log_message" then
    { st with logs := st.logs ++ [m] }
  else if m.type = "cache_stats" then
    { st with cacheStats := some m.data }
  else if m.type = "status" then
    let st1 := if getField m.data "status" = some (JVal.str "processing")
      then { st with isLoading := true } else st
    { st1 with logs := st1.logs ++ [m] }
  else if m.type = "error" then
    { st with
        error := some (handleApiError (errorEventText m.data)),
        isLoading := false }
  else st

/-- Embedding of handleSearch (App.jsx lines 71-87): clears the error,
starts loading, clears the previous response while keeping the cache
stats, sends the search_query command, and on a failed send records the
failure error and stops loading. -/
def handleSearch (socket : Option Unit) (isConnected : Bool)
    (query : String) (allowWebSearch useSubQuery : Bool) (st : AppState) :
    AppState × List WsMessage :=
  let st1 : AppState :=
    { st with error := none, isLoading := true, searchResponse := none }
  let r := sendSearchQuery socket isConnected query allowWebSearch useSubQuery
  (if r.1 then st1
   else
    { st1 with
        error := some "Failed to send search query. Please check your connection.",
        isLoading := false },
   r.2)

/-- Embedding of handleClearResults (App.jsx lines 94-100): clears the
search response, the logs and the error and empties the hook message
list; nothing else changes. -/
def handleClearResults (st : AppState) (_messages : List WsMessage) :
    AppState × List WsMessage :=
  ({ st with searchResponse := none, logs := [], error := none }, [])

/-- Embedding of getQueryTypeColor (ResultsDisplay.jsx lines 11-22): the
badge styling chosen for each query_type of a search response, with a
default for unrecognised values. -/
def getQueryTypeColor (queryType : String) : String :=
  if queryType = "OPENAI_QUERY" then "bg-blue-100 text-blue-800"
  else if queryType = "10K_DOCUMENT_QUERY" then "bg-green-100 text-green-800"
  else if queryType = "INTERNET_QUERY" then "bg-purple-100 text-purple-800"
  else "bg-gray-100 text-gray-800"

/-- The last path segment of a file path, as cache_file is displayed by
the split-pop in ResultsDisplay.jsx line 254. -/
def basename (f : String) : String := (f.splitOn "/").getLastD ""

/-- Embedding of the cache tab of ResultsDisplay.jsx (lines 230-258): the
four cards rendered from a cacheStats object, reading the fields
cache_size, threshold, embedding_dimension and cache_file, each guarded by
the JavaScript falsy-fallback of the source. -/
def renderCacheTab (cs : List (String × JVal)) : List (String × JVal) :=
  [("Cache Entries",
    match getField cs "cache_size" with
    | some (JVal.num n) => if n = 0 then JVal.num 0 else JVal.num n
    | _ => JVal.num 0),
   ("Similarity Threshold",
    match getField cs "threshold" with
    | some (JVal.num t) => if t * 100 = 0 then JVal.num 80 else JVal.num (t * 100)
    | _ => JVal.num 80),
   ("Embedding Dimensions",
    match getField cs "embedding_dimension" with
    | some (JVal.num d) => if d = 0 then JVal.num 768 else JVal.num d
    | _ => JVal.num 768),
   ("Cache File",
    match getField cs "cache_file" with
    | some (JVal.str f) =>
      if basename f = "" then JVal.str "cache.json" else JVal.str (basename f)
    | _ => JVal.str "cache.json")]

/-- Modelled from the spec: the cache_stats payload produced by the
backend stats operation (spec section 4.1), with the field names the
client reads in ResultsDisplay.jsx lines 236-254 and App.jsx line 183. -/
def statsPayload (s : CacheState) : List (String × JVal) :=
  [("cache_size", JVal.num s.entries.length),
   ("threshold", JVal.num s.threshold),
   ("embedding_dimension", JVal.num s.dim),
   ("cache_file", JVal.str s.cache_file)]

/-- Modelled from the spec: the stats operation as a state transformer:
it returns the payload and leaves the cache state untouched (spec section
4.1, read-only and side-effect-free). -/
def statsOp (s : CacheState) : List (String × JVal) × CacheState :=
  (statsPayload s, s)

/-- The connection-level state of the useWebSocket hook: the reconnect
attempt counter (reconnectAttemptsRef), the pending reconnect timer with
its delay in milliseconds (reconnectTimeoutRef), the connected flag and
the hook error string. -/
structure WsConnState where
  attempts : Nat
  pendingDelay : Option Nat
  isConnected : Bool
  connError : Option String
deriving DecidableEq, Repr

/-- The maxReconnectAttempts constant of the useWebSocket hook. -/
def maxReconnectAttempts : Nat := 5

/-- Connection lifecycle events of the useWebSocket hook: the socket
opening, the socket closing with a numeric close code, and the pending
reconnect timer firing (which counts the attempt and re-runs connect). -/
inductive WsEvent where
  | sockOpen
  | sockClose (code : Nat)
  | timerFire
deriving DecidableEq, Repr

/-- Embedding of the useWebSocket handlers (ResultsDisplay.jsx hook part,
lines 293-330): onopen resets the attempt counter and clears the error;
onclose drops the connection and, when the close code is not 1000 and
attempts remain, schedules a reconnect delayed by 2 to the power of the
attempt count, in milliseconds, and otherwise records the give-up error
once the attempt budget is spent; the timer firing consumes the pending
delay and counts one attempt. -/
def wsStep (st : WsConnState) (e : WsEvent) : WsConnState :=
  match e with
  | .sockOpen =>
    { st with isConnected := true, connError := none, attempts := 0 }
  | .sockClose code =>
    let st1 := { st with isConnected := false }
    if code ≠ 1000 ∧ st1.attempts < maxReconnectAttempts then
      { st1 with pendingDelay := some (2 ^ st1.attempts * 1000) }
    else if maxReconnectAttempts ≤ st1.attempts then
      { st1 with
          connError := some "Max reconnection attempts reached. Please refresh the page." }
    else st1
  | .timerFire =>
    match st.pendingDelay with
    | some _ => { st with attempts := st.attempts + 1, pendingDelay := none }
    | none => st

/-- The initial hook state: zero attempts, no pending timer, disconnected,
no error. -/
def wsInit : WsConnState :=
  { attempts := 0, pendingDelay := none, isConnected := false,
    connError := none }

/-- The hook state after a sequence of connection lifecycle events. -/
def wsRun (es : List WsEvent) : WsConnState := es.foldl wsStep wsInit

/-- Inductive invariant of the hook state: the attempt counter never
exceeds the budget, and a pending timer implies attempts remain. -/
def WsInv (st : WsConnState) : Prop :=
  st.attempts ≤ maxReconnectAttempts ∧
  (∀ d, st.pendingDelay = some d → st.attempts < maxReconnectAttempts)

theorem wsInv_init : WsInv wsInit := by
  constructor
  · simp [wsInit, maxReconnectAttempts]
  · intro d hd
    simp [wsInit] at hd

theorem wsInv_step (st : WsConnState) (e : WsEvent) (h : WsInv st) :
    WsInv (wsStep st e) := by
  obtain ⟨h1, h2⟩ := h
  cases e with
  | sockOpen =>
    constructor
    · simp [wsStep, maxReconnectAttempts]
    · intro d hd
      simp [wsStep, maxReconnectAttempts]
  | sockClose code =>
    simp only [wsStep]
    split
    · next hc =>
      exact ⟨h1, fun d _ => hc.2⟩
    · split
      · exact ⟨h1, fun d hd => h2 d hd⟩
      · exact ⟨h1, fun d hd => h2 d hd⟩
  | timerFire =>
    simp only [wsStep]
    cases hp : st.pendingDelay with
    | none => exact ⟨h1, fun d hd => h2 d hd⟩
    | some d0 =>
      constructor
      · exact h2 d0 hp
      · intro d hd
        simp at hd

theorem wsInv_run (es : List WsEvent) : WsInv (wsRun es) := by
  unfold wsRun
  have h : ∀ st, WsInv st → WsInv (es.foldl wsStep st) := by
    induction es with
    | nil => intro st h; exact h
    | cons e es ih =>
      intro st h
      exact ih (wsStep st e) (wsInv_step st e h)
  exact h wsInit wsInv_init

/-- C2: for every behaviour of the generative-model oracle and every
non-empty input string, classify returns a decision whose category is one
of the three fixed route categories; when the primary call fails, or the
returned token parses to no known category, the deterministic fallback
decides the category, and with no document or API keyword match the
fallback defaults to the web-search category; classify never yields a
fourth outcome or an error. -/
theorem classify_total_and_fallback (oracle : String → Option String)
    (q : String) (hq : q ≠ "") :
    ((classify oracle q).category = RouteCategory.documentQuery ∨
      (classify oracle q).category = RouteCategory.apiDocQuery ∨
      (classify oracle q).category = RouteCategory.webQuery) ∧
    (oracle q = none → (classify oracle q).category = fallbackClassify q) ∧
    (∀ tok, oracle q = some tok → parseCategory tok = none →
      (classify oracle q).category = fallbackClassify q) ∧
    (documentTerms.any (fun t => occursIn t q) = false →
      apiDocTerms.any (fun t => occursIn t q) = false →
      fallbackClassify q = RouteCategory.webQuery) := by
  refine ⟨?_, ?_, ?_, ?_⟩
  · cases h : (classify oracle q).category
    · exact Or.inl rfl
    · exact Or.inr (Or.inl rfl)
    · exact Or.inr (Or.inr rfl)
  · intro h
    simp [classify, h]
  · intro tok h1 h2
    simp [classify, h1, h2]
  · intro h1 h2
    simp [fallbackClassify, h1, h2]

/-- C2 witness: on an input matching no keyword and with the generative
call failing outright, classify still returns a category, namely the
web-search default. -/
theorem classify_total_and_fallback_witness :
    (classify (fun _ => none) "hello world").category =
      RouteCategory.webQuery := by
  have h := classify_total_and_fallback (fun _ => none) "hello world"
    (by decide)
  rw [h.2.1 rfl]
  exact h.2.2.2 (by decide) (by decide)

/-- C5 counterexample: the claim names the enum values DOCUMENT_QUERY,
API_DOC_QUERY and WEB_QUERY, but the client gives API_DOC_QUERY the badge
of an unrecognised value while it distinguishes OPENAI_QUERY, which is
none of the three claimed names. -/
theorem query_type_claim_false :
    getQueryTypeColor "API_DOC_QUERY" = "bg-gray-100 text-gray-800" ∧
    getQueryTypeColor "OPENAI_QUERY" ≠ "bg-gray-100 text-gray-800" ∧
    "OPENAI_QUERY" ≠ "DOCUMENT_QUERY" ∧ "OPENAI_QUERY" ≠ "API_DOC_QUERY" ∧
    "OPENAI_QUERY" ≠ "WEB_QUERY" := by
  decide

/-- C5 (amended): the query_type values the client distinguishes are
exactly OPENAI_QUERY, 10K_DOCUMENT_QUERY and INTERNET_QUERY — the wire
tokens of the three route categories — every other value falls to the
default badge, and every route category maps onto a distinguished
token. -/
theorem query_type_values (qt : String) (c : RouteCategory) :
    (getQueryTypeColor qt ≠ "bg-gray-100 text-gray-800" ↔
      qt = "OPENAI_QUERY" ∨ qt = "10K_DOCUMENT_QUERY" ∨
        qt = "INTERNET_QUERY") ∧
    getQueryTypeColor (categoryToken c) ≠ "bg-gray-100 text-gray-800" := by
  constructor
  · constructor
    · intro h
      unfold getQueryTypeColor at h
      split_ifs at h with h1 h2 h3
      · exact Or.inl h1
      · exact Or.inr (Or.inl h2)
      · exact Or.inr (Or.inr h3)
      · exact absurd rfl h
    · intro h
      rcases h with h | h | h <;> subst h <;> decide
  · cases c <;> decide

/-- C5 witness: the OPENAI_QUERY token, the wire value of the
API-documentation category, is distinguished from the default badge. -/
theorem query_type_values_witness :
    getQueryTypeColor "OPENAI_QUERY" ≠ "bg-gray-100 text-gray-800" :=
  (query_type_values "OPENAI_QUERY" RouteCategory.apiDocQuery).1.mpr
    (Or.inl rfl)

/-- C6 counterexample: the cache-stats payload carries its values under
cache_size and cache_file, not under the claimed names entry_count and
backing_store_identifier, and an object keyed by the claimed names is
invisible to the client cache tab, which renders exactly its defaults for
it. -/
theorem stats_fields_claim_false :
    getField (statsPayload sampleState) "entry_count" = none ∧
    getField (statsPayload sampleState) "backing_store_identifier" = none ∧
    getField (statsPayload sampleState) "cache_size" = some (JVal.num 1) ∧
    getField (statsPayload sampleState) "cache_file" =
      some (JVal.str "semantic_cache.json") ∧
    renderCacheTab [("entry_count", JVal.num 5),
      ("backing_store_identifier", JVal.str "other.json")] =
      renderCacheTab [] := by
  decide

/-- C6 (amended): the stats payload carries exactly the four fields
cache_size, threshold, embedding_dimension and cache_file — the names the
client reads — and the stats operation returns that payload while leaving
the cache state unchanged. -/
theorem stats_fields_and_readonly (s : CacheState) :
    (statsPayload s).map Prod.fst =
      ["cache_size", "threshold", "embedding_dimension", "cache_file"] ∧
    (statsOp s).2 = s ∧ (statsOp s).1 = statsPayload s :=
  ⟨rfl, rfl, rfl⟩

/-- C7: a connected search submission sends exactly one search_query
command whose data carries exactly the fields query, allow_web_search and
sub_query; a cache-stats request sends one cache_stats command with empty
data; and the App dispatch distinguishes exactly the five event types
search_response, log_message, cache_stats, status and error — each with
its own distinct effect: storing the response and stopping loading,
appending to the logs, storing the stats payload, flipping the loading
flag on a processing status while logging the event, and recording the
processed error text while stopping loading — and leaves the state
unchanged for every other type. -/
theorem client_protocol (query : String) (aw sq : Bool) (st : AppState)
    (d : List (String × JVal)) (m : WsMessage)
    (hm : m.type ∉ ["status", "log_message", "search_response",
      "cache_stats", "error"]) :
    sendSearchQuery (some ()) true query aw sq =
      (true, [searchQueryMessage query aw sq]) ∧
    (searchQueryMessage query aw sq).type = "search_query" ∧
    (searchQueryMessage query aw sq).data.map Prod.fst =
      ["query", "allow_web_search", "sub_query"] ∧
    cacheStatsMessage.type = "cache_stats" ∧
    cacheStatsMessage.data = [] ∧
    requestCacheStats (some ()) true = (true, [cacheStatsMessage]) ∧
    appHandleMessage st { type := "search_response", data := d } =
      { st with searchResponse := some d, isLoading := false } ∧
    appHandleMessage st { type := "log_message", data := d } =
      { st with logs := st.logs ++ [{ type := "log_message", data := d }] } ∧
    appHandleMessage st { type := "cache_stats", data := d } =
      { st with cacheStats := some d } ∧
    appHandleMessage st { type := "status", data := d } =
      { st with
          isLoading :=
            if getField d "status" = some (JVal.str "processing") then true
            else st.isLoading,
          logs := st.logs ++ [{ type := "status", data := d }] } ∧
    appHandleMessage st { type := "error", data := d } =
      { st with
          error := some (handleApiError (errorEventText d)),
          isLoading := false } ∧
    appHandleMessage st m = st := by
  obtain ⟨h1, h2, h3, h4, h5⟩ : m.type ≠ "status" ∧ m.type ≠ "log_message" ∧
      m.type ≠ "search_response" ∧ m.type ≠ "cache_stats" ∧
      m.type ≠ "error" := by
    simpa using hm
  refine ⟨rfl, rfl, rfl, rfl, rfl, rfl, ?_, ?_, ?_, ?_, ?_, ?_⟩
  · simp [appHandleMessage]
  · simp [appHandleMessage]
  · simp [appHandleMessage]
  · by_cases hc : getField d "status" = some (JVal.str "processing") <;>
      simp [appHandleMessage, hc]
  · simp [appHandleMessage]
  · simp [appHandleMessage, h1, h2, h3, h4, h5]

/-- C7 witness: a message of an unlisted type (a pong) leaves the initial
App state unchanged, and a concrete search submission sends its one
command. -/
theorem client_protocol_witness :
    appHandleMessage initialAppState { type := "pong", data := [] } =
      initialAppState :=
  (client_protocol "why" true false initialAppState []
    { type := "pong", data := [] } (by decide)).2.2.2.2.2.2.2.2.2.2.2

/-- C8: an intentional close (code 1000) never schedules a reconnect; any
other close with attempts remaining schedules the n-th reconnect (n the
current attempt count, starting at 0) delayed by 2 to the n seconds,
stored in milliseconds; once the five-attempt budget is spent a close
records the give-up error and schedules nothing; and over every event
sequence the hook counts at most five reconnect attempts. -/
theorem reconnect_policy (st : WsConnState) (code : Nat)
    (es : List WsEvent) :
    (wsStep st (WsEvent.sockClose 1000)).pendingDelay = st.pendingDelay ∧
    (code ≠ 1000 → st.attempts < maxReconnectAttempts →
      (wsStep st (WsEvent.sockClose code)).pendingDelay =
        some (2 ^ st.attempts * 1000)) ∧
    (maxReconnectAttempts ≤ st.attempts →
      (wsStep st (WsEvent.sockClose code)).connError =
        some "Max reconnection attempts reached. Please refresh the page." ∧
      (wsStep st (WsEvent.sockClose code)).pendingDelay =
        st.pendingDelay) ∧
    (wsRun es).attempts ≤ maxReconnectAttempts := by
  refine ⟨?_, ?_, ?_, (wsInv_run es).1⟩
  · simp only [wsStep]
    split
    · next hc => exact absurd rfl hc.1
    · split <;> rfl
  · intro hcode hatt
    simp only [wsStep]
    rw [if_pos ⟨hcode, hatt⟩]
  · intro hspent
    simp only [wsStep]
    rw [if_neg fun hc => absurd hc.2 (not_lt.mpr hspent), if_pos hspent]
    exact ⟨rfl, rfl⟩

/-- C8 witness: a first abnormal close (code 1006) from the initial state
schedules a reconnect after 2 to the 0 seconds, that is 1000 ms. -/
theorem reconnect_policy_witness :
    (wsStep wsInit (WsEvent.sockClose 1006)).pendingDelay = some 1000 := by
  have h := (reconnect_policy wsInit 1006 []).2.1 (by decide) (by decide)
  norm_num [wsInit] at h
  exact h

/-- With no socket or a down connection, sendMessage transmits nothing and
returns false. -/
theorem sendMessage_disconnected (socket : Option Unit) (conn : Bool)
    (m : WsMessage) (h : socket = none ∨ conn = false) :
    sendMessage socket conn m = (false, []) := by
  cases socket with
  | none => rfl
  | some u =>
    rcases h with h | h
    · exact absurd h (by simp)
    · simp [sendMessage, h]

/-- C9: whenever the socket is absent or not connected, sendMessage — and
with it sendSearchQuery and requestCacheStats — transmits nothing and
returns false, and handleSearch then records the send-failure error,
clears the loading flag, records no search response, and sends nothing. -/
theorem send_fails_disconnected (socket : Option Unit) (conn : Bool)
    (m : WsMessage) (query : String) (aw sq : Bool) (st : AppState)
    (h : socket = none ∨ conn = false) :
    sendMessage socket conn m = (false, []) ∧
    sendSearchQuery socket conn query aw sq = (false, []) ∧
    requestCacheStats socket conn = (false, []) ∧
    (handleSearch socket conn query aw sq st).1.error =
      some "Failed to send search query. Please check your connection." ∧
    (handleSearch socket conn query aw sq st).1.isLoading = false ∧
    (handleSearch socket conn query aw sq st).1.searchResponse = none ∧
    (handleSearch socket conn query aw sq st).2 = [] := by
  have hs : sendSearchQuery socket conn query aw sq = (false, []) :=
    sendMessage_disconnected socket conn _ h
  refine ⟨sendMessage_disconnected socket conn m h, hs,
    sendMessage_disconnected socket conn cacheStatsMessage h, ?_, ?_, ?_, ?_⟩
    <;> simp [handleSearch, hs]

/-- C9 witness: with the socket absent, a concrete handleSearch records
the send-failure error. -/
theorem send_fails_disconnected_witness :
    (handleSearch none true "why" true false initialAppState).1.error =
      some "Failed to send search query. Please check your connection." :=
  (send_fails_disconnected none true cacheStatsMessage "why" true false
    initialAppState (Or.inl rfl)).2.2.2.1

/-- C10: neither submitting a new search nor clearing results touches the
stored cacheStats: handleSearch also keeps the logs, resetting only the
error, the loading flag and the previous response, and handleClearResults
keeps the loading flag while resetting exactly the search response, the
logs, the error and the hook message list. -/
theorem cache_stats_frame (socket : Option Unit) (conn : Bool)
    (query : String) (aw sq : Bool) (st : AppState)
    (messages : List WsMessage) :
    (handleSearch socket conn query aw sq st).1.cacheStats =
      st.cacheStats ∧
    (handleSearch socket conn query aw sq st).1.logs = st.logs ∧
    (handleClearResults st messages).1.cacheStats = st.cacheStats ∧
    (handleClearResults st messages).1.isLoading = st.isLoading ∧
    (handleClearResults st messages).1.searchResponse = none ∧
    (handleClearResults st messages).1.logs = [] ∧
    (handleClearResults st messages).1.error = none ∧
    (handleClearResults st messages).2 = [] := by
  refine ⟨?_, ?_, rfl, rfl, rfl, rfl, rfl, rfl⟩ <;>
    · simp only [handleSearch]
      split <;> rfl

end SSE
